import Mathlib

/-
  Verification of the credential and session lifecycle manager of the
  Ideas-Hub backend (FastAPI application under `app/`).

  This file is a shallow embedding of the Python source into Lean 4:

  * `app/core/util.py`        — hashing helpers (`hash_token`, password hashing)
  * `app/crud/auth.py`        — `AuthService` (password reset flow, login
                                 throttling, password strength policy)
  * `app/core/security.py`    — access tokens, refresh token issuance,
                                 verification and revocation (the live variant)
  * `app/auth.py`             — the legacy variant of the refresh token store
                                 (imported only by `app/routes/oauth.py`)
  * `app/routers/local_auth.py` and `app/routers/auth_google.py` — the
                                 endpoint orchestration relevant to the claims.

  Conventions of the embedding:
  * wall-clock instants (`datetime.utcnow()` / `datetime.now(timezone.utc)`)
    are integer numbers of seconds, passed explicitly as `now`;
    `timedelta(minutes=m)` is `m * 60`, `timedelta(hours=h)` is `h * 3600`,
    `timedelta(days=d)` is `d * 86400`;
  * the database session is an explicit value: the users table is a
    `List User`, the refresh_tokens table a `List RefreshToken`; SQLAlchemy's
    `.scalars().first()` / `.scalar_one_or_none()` is `List.find?`, and
    mutating a fetched row followed by `commit` replaces the row (matched by
    primary key `id`) in the list;
  * outputs of the process CSPRNG (`secrets.token_urlsafe`, `uuid.uuid4`)
    are explicit arguments of the embedded functions;
  * `fastapi.HTTPException` raised paths are `none` / error results.
-/

namespace IdeasHub

/-! ## Cryptographic primitives (`app/core/util.py`)

SHA-256 (`hashlib.sha256(token.encode()).hexdigest()`) and Argon2
(`passlib` `CryptContext(schemes=["argon2"])`) are modelled as injective
formal digests: every claim in this development depends only on which
strings hash equal, whether a digest can coincide with its preimage, and on
where digests are stored — never on the bit-level value of a digest. -/

/-- Model of `app/core/util.py::hash_token`:
`hashlib.sha256(token.encode()).hexdigest()`. -/
def hash_token (token : String) : String :=
  "sha256:" ++ token

/-- Model of `app/core/util.py::hashed_password`: `pwd_context.hash(password)`
(Argon2). -/
def hashed_password (password : String) : String :=
  "argon2:" ++ password

/-- Model of `app/core/util.py::verify_hashed_password`:
`pwd_context.verify(plain_password, hashed_password)`. The async wrappers
`async_hashed_password` / `async_verify_hashed_password` offload the same
computation to a worker thread and are identified with it here. -/
def verify_hashed_password (plain_password : String) (hp : String) : Bool :=
  hp == hashed_password plain_password

/-! ## Data model (`app/db/models/user.py`, `app/db/models/token.py`) -/

/-- The `users` table row (`app/db/models/user.py::User`), restricted to the
columns the credential subsystem reads or writes. `id` is the primary key,
`role` the string value of the `UserRole` enum. -/
structure User where
  id : Nat
  email : String
  name : String
  password_hash : String
  is_email_verified : Bool
  reset_token : Option String
  reset_token_expires : Option Int
  reset_attempts : Nat
  password_changed_at : Option Int
  last_login_at : Option Int
  failed_login_attempts : Nat
  last_failed_login_at : Option Int
  role : String
deriving Repr, DecidableEq

/-- The `refresh_tokens` table row (`app/db/models/token.py::RefreshToken`). -/
structure RefreshToken where
  id : Nat
  token : String
  jti : String
  user_id : Nat
  expires_at : Int
  revoked : Bool
deriving Repr, DecidableEq

/-- SQLAlchemy commit of a mutated `User` row: replace the row with the same
primary key. -/
def update_user (db : List User) (u : User) : List User :=
  db.map (fun v => if v.id == u.id then u else v)

/-- Python `str.lower()`, character by character (used by
`password.lower()` and by the case-insensitive `ilike` email match). -/
def str_lower (s : String) : String :=
  String.mk (s.data.map Char.toLower)

/-! ## Password strength policy (`app/crud/auth.py::AuthService.validate_password_strength`) -/

/-- The fixed punctuation set of `validate_password_strength`
(`special_chars = "!@#$%^&*()_+-=[]{}|;:,.<>?"`). -/
def special_chars : String :=
  "!@#$%^&*()_+-=[]\x7b\x7d|;:,.<>?"

/-- The deny-list of common passwords in `validate_password_strength`. -/
def common_passwords : List String :=
  ["password", "12345678", "qwerty", "abc123", "password123"]

/-- `app/crud/auth.py::AuthService.validate_password_strength`: starting
from an empty list, each violated rule appends its message (`errors.append`);
the chain of conditional appends below preserves the source's rule order.
`c.isupper()`, `c.islower()`, `c.isdigit()` are `Char.isUpper` etc. -/
def validate_password_strength (password : String) : List String :=
  (if password.length < 8 then
    ["Password must be at least 8 characters long"] else []) ++
  (if password.length > 128 then
    ["Password must not exceed 128 characters"] else []) ++
  (if !(password.data.any Char.isUpper) then
    ["Password must contain at least one uppercase letter"] else []) ++
  (if !(password.data.any Char.isLower) then
    ["Password must contain at least one lowercase letter"] else []) ++
  (if !(password.data.any Char.isDigit) then
    ["Password must contain at least one number"] else []) ++
  (if !(password.data.any (fun c => special_chars.data.contains c)) then
    ["Password must contain at least one special character"] else []) ++
  (if common_passwords.contains (str_lower password) then
    ["Password is too common"] else [])

/-! ## Password reset flow (`app/crud/auth.py::AuthService`) -/

/-- `AuthService.RESET_TOKEN_EXPIRY_HOURS = 1`, in seconds. -/
def RESET_TOKEN_EXPIRY : Int := 1 * 3600

/-- `AuthService.MAX_RESET_ATTEMPTS = 3`. -/
def MAX_RESET_ATTEMPTS : Nat := 3

/-- `AuthService.RESET_COOLDOWN_MINUTES = 5`, in seconds. -/
def RESET_COOLDOWN : Int := 5 * 60

/-- The generic response dictionary `success_message` returned by
`AuthService.request_password_reset` on every path:
`(message, success, next_step)`. -/
def success_message : String × Bool × String :=
  ("If an account with this email exists, password reset instructions have been sent.",
   true, "check_email")

/-- `app/crud/auth.py::AuthService.request_password_reset`.
`raw_token` is the CSPRNG output of `generate_reset_token`
(`secrets.token_urlsafe(32)`); its digest is `hash_token raw_token`, exactly
as `generate_reset_token` computes. Returns the caller-visible response and
the resulting users table. The email dispatch through the Notifier does not
affect either. -/
def request_password_reset (email : String) (db : List User) (now : Int)
    (raw_token : String) : (String × Bool × String) × List User :=
  match db.find? (fun u => u.email == email) with
  | none => (success_message, db)
  | some user =>
    let cooldown_active : Bool :=
      match user.reset_token_expires with
      | some expires =>
        -- time_since_last = utcnow() - (reset_token_expires - expiry_hours)
        decide (now - (expires - RESET_TOKEN_EXPIRY) < RESET_COOLDOWN)
      | none => false
    if cooldown_active then
      (success_message, db)
    else
      let hashed_token := hash_token raw_token
      let reset_expires := now + RESET_TOKEN_EXPIRY
      let user' := { user with
        reset_token := some hashed_token,
        reset_token_expires := some reset_expires,
        reset_attempts := 0 }
      (success_message, update_user db user')

/-- The expiry test of `AuthService.verify_reset_token`:
`user.reset_token_expires and user.reset_token_expires < datetime.utcnow()`. -/
def reset_token_expired (u : User) (now : Int) : Bool :=
  match u.reset_token_expires with
  | some e => decide (e < now)
  | none => false

/-- `app/crud/auth.py::AuthService.verify_reset_token`: look the user up by
the digest of `raw_token`; on the expired path clear `reset_token` and
`reset_token_expires` and fail; with `increment_attempts` bump
`reset_attempts` and, once it reaches `MAX_RESET_ATTEMPTS`, clear the token
fields and fail; otherwise return the user. -/
def verify_reset_token (raw_token : String) (db : List User) (now : Int)
    (increment_attempts : Bool := true) : Option User × List User :=
  -- token_hash = hash_token(raw_token), used in the single lookup below
  match db.find? (fun u => u.reset_token == some (hash_token raw_token)) with
  | none => (none, db)
  | some user =>
    if reset_token_expired user now then
      let user' := { user with reset_token := none, reset_token_expires := none }
      (none, update_user db user')
    else if increment_attempts then
      let user' := { user with reset_attempts := user.reset_attempts + 1 }
      if user'.reset_attempts ≥ MAX_RESET_ATTEMPTS then
        let user'' := { user' with reset_token := none, reset_token_expires := none }
        (none, update_user db user'')
      else
        (some user', update_user db user')
    else
      (some user, db)

/-! ## Login throttling (`app/crud/auth.py::AuthService.authenticate_user`) -/

/-- `lockout_duration = timedelta(minutes=30)`, in seconds. -/
def lockout_duration : Int := 30 * 60

/-- The lockout block at the head of `AuthService.authenticate_user`
(lines 250-261): with `failed_login_attempts >= 5`, a recorded last failure
younger than 30 minutes returns `None` without touching the row (`none`
here); a missing last-failure timestamp lazily heals the counter; an elapsed
window falls through with the row unchanged. -/
def check_lockout (user : User) (now : Int) : Option User :=
  if user.failed_login_attempts ≥ 5 then
    match user.last_failed_login_at with
    | some t =>
      if now - t < lockout_duration then none else some user
    | none =>
      some { user with failed_login_attempts := 0, last_failed_login_at := none }
  else
    some user

/-- `app/crud/auth.py::AuthService.authenticate_user`: find the user by
case-insensitive email (`User.email.ilike(email)`), enforce the lockout,
then verify the password; success resets the failure counters and stamps
`last_login_at`, failure increments the counter and stamps
`last_failed_login_at`. -/
def authenticate_user (email password : String) (db : List User) (now : Int) :
    Option User × List User :=
  match db.find? (fun u => str_lower u.email == str_lower email) with
  | none => (none, db)
  | some user0 =>
    match check_lockout user0 now with
    | none => (none, db)   -- still locked: return None, row untouched
    | some user =>
      if verify_hashed_password password user.password_hash then
        let user' := { user with
          last_login_at := some now,
          failed_login_attempts := 0,
          last_failed_login_at := none }
        (some user', update_user db user')
      else
        let user' := { user with
          failed_login_attempts := user.failed_login_attempts + 1,
          last_failed_login_at := some now }
        (none, update_user db user')

/-- The error classification of `app/routers/local_auth.py::login`
(lines 99-114): when `authenticate_user` fails, re-fetch the user by exact
email and report the account as locked iff `failed_login_attempts >= 5`,
otherwise report invalid credentials. -/
inductive LoginError where
  | account_locked
  | invalid_credentials
deriving Repr, DecidableEq

/-- Outcome of `POST /login` (`app/routers/local_auth.py::login`) as seen by
the caller: `Except` of the raised `HTTPException` class or the
authenticated user. -/
def login_outcome (email password : String) (db : List User) (now : Int) :
    Except LoginError User :=
  match authenticate_user email password db now with
  | (some user, _) => .ok user
  | (none, db') =>
    match db'.find? (fun u => u.email == email) with
    | some check_user =>
      if check_user.failed_login_attempts ≥ 5 then .error .account_locked
      else .error .invalid_credentials
    | none => .error .invalid_credentials

/-! ## Access tokens (`app/core/security.py::create_access_token`)

The JWT payload is modelled at the claims level: `jwt.encode` serialises and
signs exactly the dictionary `to_encode`; the claims present in the token
are the keys of that dictionary. -/

/-- A JSON value stored in the JWT payload. -/
inductive JwtVal where
  | str (s : String)
  | time (t : Int)
deriving Repr, DecidableEq

/-- A Python dictionary of claims, in insertion order. -/
abbrev Claims := List (String × JwtVal)

/-- Python `dict` update of a single key: overwrite in place when present,
append otherwise. -/
def dict_set (d : Claims) (k : String) (v : JwtVal) : Claims :=
  if d.any (fun p => p.1 == k) then
    d.map (fun p => if p.1 == k then (k, v) else p)
  else
    d ++ [(k, v)]

/-- Python `dict` lookup. -/
def dict_get (d : Claims) (k : String) : Option JwtVal :=
  (d.find? (fun p => p.1 == k)).map Prod.snd

/-- `settings.ACCESS_TOKEN_EXPIRE_MINUTES` (default 15, `app/core/config.py`),
in seconds. -/
def ACCESS_TOKEN_EXPIRE : Int := 15 * 60

/-- `settings.REFRESH_TOKEN_EXPIRE_DAYS` (default 7, `app/core/config.py`),
in seconds. -/
def REFRESH_TOKEN_EXPIRE : Int := 7 * 86400

/-- `app/core/security.py::create_access_token`: copy `data`, then
`to_encode.update({"iat": now, "exp": expire, "jti": str(uuid.uuid4())})`.
`jti` is the freshly drawn `uuid.uuid4()`, passed explicitly. The result is
the claims dictionary that `jwt.encode` signs. -/
def create_access_token (data : Claims) (now : Int)
    (expires_delta : Option Int) (jti : String) : Claims :=
  let to_encode := data
  let expire :=
    match expires_delta with
    | some d => now + d
    | none => now + ACCESS_TOKEN_EXPIRE
  dict_set (dict_set (dict_set to_encode "iat" (.time now)) "exp" (.time expire))
    "jti" (.str jti)

/-- The access-token claims built at the local login site
(`app/routers/local_auth.py` line 124):
`create_access_token(data={"sub": str(user.id)})`. -/
def local_login_claims (user : User) (now : Int) (jti : String) : Claims :=
  create_access_token [("sub", .str (toString user.id))] now none jti

/-- The access-token claims built at the Google OAuth callback site
(`app/routers/auth_google.py` lines 103-104):
`create_access_token(data={"sub": str(user.id), "role": user.role.value})`. -/
def google_callback_claims (user : User) (now : Int) (jti : String) : Claims :=
  create_access_token [("sub", .str (toString user.id)), ("role", .str user.role)]
    now none jti

/-- The access-token claims built at the refresh site
(`app/routers/auth_google.py` lines 162-163): same payload as the callback
site. -/
def refresh_site_claims (user : User) (now : Int) (jti : String) : Claims :=
  create_access_token [("sub", .str (toString user.id)), ("role", .str user.role)]
    now none jti

/-! ## Refresh token store (`app/core/security.py`) -/

/-- The dictionary returned by a successful
`app/core/security.py::verify_refresh_token`:
`{"user_id": ..., "id": ...}`. -/
structure RefreshPayload where
  user_id : Nat
  record_id : Nat
deriving Repr, DecidableEq

/-- `app/core/security.py::verify_refresh_token`: select the record with
`token == hash_token(refresh_token)` and `revoked == False`; absent ⇒ fail
(`credentials_exception`); past expiry ⇒ delete the record, commit, fail;
otherwise return the payload. The record is not mutated on success. -/
def verify_refresh_token (refresh_token : String) (db : List RefreshToken)
    (now : Int) : Option RefreshPayload × List RefreshToken :=
  let hashed := hash_token refresh_token
  match db.find? (fun t => t.token == hashed && t.revoked == false) with
  | none => (none, db)
  | some t =>
    if t.expires_at < now then
      (none, db.filter (fun r => r.id != t.id))
    else
      (some ⟨t.user_id, t.id⟩, db)

/-- `app/core/security.py::create_refresh_token_entry`: generate the raw
token (`create_refresh_token() = secrets.token_urlsafe(32)`, 32 CSPRNG bytes
before encoding — the drawn value is the explicit argument
`raw_refresh_token`), store a new row holding `hash_token raw` and a fresh
`jti`, and return the raw, un-hashed token to the caller. `new_id` models the
autoincrement primary key. -/
def create_refresh_token_entry (db : List RefreshToken) (user_id : Nat)
    (raw_refresh_token : String) (jti : String) (new_id : Nat) (now : Int) :
    String × List RefreshToken :=
  let hashed_token := hash_token raw_refresh_token
  let new_entry : RefreshToken :=
    { id := new_id, token := hashed_token, jti := jti, user_id := user_id,
      expires_at := now + REFRESH_TOKEN_EXPIRE, revoked := false }
  (raw_refresh_token, db ++ [new_entry])

/-- The number of CSPRNG bytes drawn by
`app/core/security.py::create_refresh_token` (`secrets.token_urlsafe(32)`). -/
def refresh_token_entropy_bytes : Nat := 32

/-- `app/core/security.py::revoke_refresh_token`: `db.get` the row by primary
key; if present and not yet revoked, set `revoked = True` and commit. A
read-modify-write, not a conditional update. -/
def revoke_refresh_token (db : List RefreshToken) (refresh_token_id : Nat) :
    List RefreshToken :=
  match db.find? (fun t => t.id == refresh_token_id) with
  | none => db
  | some t =>
    if t.revoked then db
    else db.map (fun r => if r.id == refresh_token_id then { r with revoked := true } else r)

/-! ## The legacy refresh token store (`app/auth.py`)

`app/auth.py::create_refresh_token_entry` is the variant imported by
`app/routes/oauth.py`; it persists the raw token itself
(`RefreshToken(token=refresh_token, ...)`) instead of its digest. Its row
type (`app/models.py::RefreshToken`) has no `jti` and no `revoked` column. -/

/-- The `refresh_tokens` row of the legacy model (`app/models.py`). -/
structure LegacyRefreshToken where
  id : Nat
  token : String
  user_id : Nat
  expires_at : Int
deriving Repr, DecidableEq

/-- `app/auth.py::create_refresh_token_entry`: purge the caller's expired
rows, then insert `RefreshToken(token=refresh_token, user_id=..., expires_at=...)`
with the raw token in the `token` column, and return the raw token. -/
def legacy_create_refresh_token_entry (db : List LegacyRefreshToken)
    (user_id : Nat) (refresh_token : String) (new_id : Nat) (now : Int) :
    String × List LegacyRefreshToken :=
  let db := db.filter (fun t => !(t.user_id == user_id && decide (t.expires_at < now)))
  let new_refresh_token : LegacyRefreshToken :=
    { id := new_id, token := refresh_token, user_id := user_id,
      expires_at := now + 30 * 86400 }
  (refresh_token, db ++ [new_refresh_token])

/-! ## The refresh race (`app/routers/auth_google.py::refresh_access_token`)

The endpoint performs, as separate database statements each atomic on its
own: (1) the SELECT of `verify_refresh_token`, then (2) the read-modify-write
of `revoke_refresh_token`. Requests are served concurrently with no global
lock, so two in-flight calls presenting the same cookie interleave these
statements freely. A caller *succeeds* iff its `verify_refresh_token`
returns a payload: it then proceeds to mint a fresh (access, refresh) pair. -/

/-- One in-flight `POST /auth/refresh` caller: its program counter over the
two statements and the payload its verify step produced. -/
structure RefreshCaller where
  pc : Nat
  payload : Option RefreshPayload
deriving Repr, DecidableEq

/-- The shared store plus the two racing callers. -/
structure RaceState where
  db : List RefreshToken
  a : RefreshCaller
  b : RefreshCaller
deriving Repr, DecidableEq

/-- Execute one caller's next atomic statement against the shared store:
step 0 is `verify_refresh_token` (a failed verify raises and the caller
stops), step 1 is `revoke_refresh_token` on the id the verify returned. -/
def caller_step (c : RefreshCaller) (db : List RefreshToken) (tok : String)
    (now : Int) : RefreshCaller × List RefreshToken :=
  match c.pc with
  | 0 =>
    match verify_refresh_token tok db now with
    | (some p, db') => ({ pc := 1, payload := some p }, db')
    | (none, db') => ({ pc := 2, payload := none }, db')
  | 1 =>
    match c.payload with
    | some p => ({ c with pc := 2 }, revoke_refresh_token db p.record_id)
    | none => ({ c with pc := 2 }, db)
  | _ => (c, db)

/-- Run an interleaving: `true` schedules caller A for one atomic statement,
`false` caller B. -/
def run_schedule (sched : List Bool) (s : RaceState) (tok : String)
    (now : Int) : RaceState :=
  match sched with
  | [] => s
  | true :: rest =>
    let (a', db') := caller_step s.a s.db tok now
    run_schedule rest { s with a := a', db := db' } tok now
  | false :: rest =>
    let (b', db') := caller_step s.b s.db tok now
    run_schedule rest { s with b := b', db := db' } tok now

/-- A caller succeeded iff its `verify_refresh_token` returned a payload. -/
def caller_succeeded (c : RefreshCaller) : Bool :=
  c.payload.isSome

/-- Initial race state: both callers at their first statement. -/
def init_race (db : List RefreshToken) : RaceState :=
  { db := db, a := { pc := 0, payload := none }, b := { pc := 0, payload := none } }

/-! ## Concrete rows used to evaluate the code at specific inputs -/

/-- A live refresh-token record: digest of the raw cookie value `"rt1"`,
not revoked, expiring at instant 1000. -/
def race_record : RefreshToken :=
  { id := 1, token := hash_token "rt1", jti := "j1", user_id := 7,
    expires_at := 1000, revoked := false }

/-- A user whose password-reset token (raw value `"tok8"`) expired at
instant 10. -/
def expired_reset_user : User :=
  { id := 1
    email := "alice@example.com"
    name := "alice"
    password_hash := hashed_password "Xy1!abcd"
    is_email_verified := true
    reset_token := some (hash_token "tok8")
    reset_token_expires := some 10
    reset_attempts := 0
    password_changed_at := none
    last_login_at := none
    failed_login_attempts := 0
    last_failed_login_at := none
    role := "user" }

/-- A user holding a live reset token (raw value `"tok7"`, expires at 1000)
with one prior verification attempt recorded. -/
def live_reset_user : User :=
  { expired_reset_user with
    id := 2
    email := "bob@example.com"
    name := "bob"
    reset_token := some (hash_token "tok7")
    reset_token_expires := some 1000
    reset_attempts := 1 }

/-- A user with no pending reset state and a known password. -/
def plain_user : User :=
  { expired_reset_user with
    id := 3
    email := "carol@example.com"
    name := "carol"
    password_hash := hashed_password "Str0ng!Pass"
    reset_token := none
    reset_token_expires := none
    reset_attempts := 0 }

/-- `{u with failed_login_attempts := 5, last_failed_login_at := some t}`:
the row after the fifth consecutive failure recorded at instant `t`. -/
def locked_user (u : User) (t : Int) : User :=
  { u with failed_login_attempts := 5, last_failed_login_at := some t }

/-- The row written by a successful login at instant `now`. -/
def success_user (u : User) (now : Int) : User :=
  { u with
    last_login_at := some now
    failed_login_attempts := 0
    last_failed_login_at := none }

/-- `n` consecutive login attempts with the password `wrong`, all made at
instant `t`, starting from the single-user table `[u]`; each step threads the
users table produced by `authenticate_user`. -/
def consecutive_failed_logins (u : User) (wrong : String) (t : Int) :
    Nat → List User
  | 0 => [u]
  | n + 1 =>
    (authenticate_user u.email wrong (consecutive_failed_logins u wrong t n) t).2

/-- The user row with its pending reset state (token digest and expiry)
cleared, as written by the expired-token and attempt-exhaustion paths of
`verify_reset_token`. -/
def clear_reset (u : User) : User :=
  { u with reset_token := none, reset_token_expires := none }

/-! ## Helper lemmas -/

theorem mem_if_singleton {c : Prop} [Decidable c] {m x : String} :
    x ∈ (if c then [m] else ([] : List String)) ↔ c ∧ x = m := by
  split_ifs with h <;> simp_all

theorem hash_token_ne (raw : String) : hash_token raw ≠ raw := by
  intro h
  have hlen : (hash_token raw).length = raw.length := congrArg String.length h
  rw [hash_token, String.length_append] at hlen
  have h7 : ("sha256:" : String).length = 7 := rfl
  omega

theorem request_response_is_success (email : String) (db : List User)
    (now : Int) (raw : String) :
    (request_password_reset email db now raw).1 = success_message := by
  unfold request_password_reset
  cases h : db.find? (fun u => u.email == email)
  · rfl
  · dsimp only
    split <;> rfl

/-! ## The claims -/

/-- Claim C1: the claim asserts that verify-and-consume of a raw refresh
token succeeds at most once across concurrent callers, enforced by an atomic
conditional update. The code has no such update: `verify_refresh_token` is a
plain SELECT and `revoke_refresh_token` a separate read-modify-write, so in
the interleaving (A.verify, B.verify, A.revoke, B.revoke) over one live
record both callers succeed and each is handed a fresh token pair — the
at-most-once property fails. The sequential interleaving, in which the
second caller observes the revoked record and fails, is included to show the
model agrees with the code when no race occurs. -/
theorem claim_C1_race_two_successes :
    (caller_succeeded
        (run_schedule [true, false, true, false] (init_race [race_record]) "rt1" 0).a = true ∧
     caller_succeeded
        (run_schedule [true, false, true, false] (init_race [race_record]) "rt1" 0).b = true) ∧
    (caller_succeeded
        (run_schedule [true, true, false, false] (init_race [race_record]) "rt1" 0).a = true ∧
     caller_succeeded
        (run_schedule [true, true, false, false] (init_race [race_record]) "rt1" 0).b = false) := by
  decide

/-- Claim C2: the live store (`app/core/security.py::create_refresh_token_entry`)
persists only the digest `hash_token raw` — a value distinct from the raw
token — returns the raw value exactly once, and draws 32 CSPRNG bytes
(256 bits); but the legacy variant (`app/auth.py::create_refresh_token_entry`,
cited by the claim's sources) persists the raw token itself in the `token`
column, violating the never-in-plaintext invariant the claim states. -/
theorem claim_C2_plaintext_in_legacy_store :
    (∀ (db : List RefreshToken) (uid : Nat) (raw jti : String) (nid : Nat) (now : Int),
      (create_refresh_token_entry db uid raw jti nid now).1 = raw ∧
      (create_refresh_token_entry db uid raw jti nid now).2 =
        db ++ [{ id := nid
                 token := hash_token raw
                 jti := jti
                 user_id := uid
                 expires_at := now + REFRESH_TOKEN_EXPIRE
                 revoked := false }] ∧
      hash_token raw ≠ raw) ∧
    refresh_token_entropy_bytes = 32 ∧
    (legacy_create_refresh_token_entry [] 1 "raw_tok" 1 0).2.map LegacyRefreshToken.token =
      ["raw_tok"] := by
  refine ⟨fun db uid raw jti nid now => ⟨rfl, rfl, hash_token_ne raw⟩, rfl, by decide⟩

/-- Claim C4: `validate_password_strength` returns the full list of violated
rules — each rule's message is in the output iff that rule is violated, for
every password — and concretely `"password"` yields at least four violations
while `"Str0ng!Pass"` yields none. -/
theorem claim_C4_full_violation_list :
    (∀ p : String,
      ("Password must be at least 8 characters long" ∈ validate_password_strength p ↔
        p.length < 8) ∧
      ("Password must not exceed 128 characters" ∈ validate_password_strength p ↔
        p.length > 128) ∧
      ("Password must contain at least one uppercase letter" ∈ validate_password_strength p ↔
        p.data.any Char.isUpper = false) ∧
      ("Password must contain at least one lowercase letter" ∈ validate_password_strength p ↔
        p.data.any Char.isLower = false) ∧
      ("Password must contain at least one number" ∈ validate_password_strength p ↔
        p.data.any Char.isDigit = false) ∧
      ("Password must contain at least one special character" ∈ validate_password_strength p ↔
        p.data.any (fun c => special_chars.data.contains c) = false) ∧
      ("Password is too common" ∈ validate_password_strength p ↔
        common_passwords.contains (str_lower p) = true)) ∧
    4 ≤ (validate_password_strength "password").length ∧
    validate_password_strength "Str0ng!Pass" = [] := by
  refine ⟨fun p => ⟨?_, ?_, ?_, ?_, ?_, ?_, ?_⟩, by decide, by decide⟩ <;>
    simp [validate_password_strength, List.mem_append, mem_if_singleton]

/-- Claim C5 counterexample: the claim says every access-token creation site
encodes the `role` claim; at the local login site
(`app/routers/local_auth.py` line 124) the payload is
`{"sub": str(user.id)}` and the issued token carries no `role` claim. -/
theorem claim_C5_cex_local_login_has_no_role :
    dict_get (local_login_claims plain_user 0 "jti-0") "role" = none := by
  decide

/-- Claim C5 (amended): every access-token creation site encodes `sub`
(principal id, stringified), `iat`, `exp = now + ttl` and the fresh random
`jti`; the two Google OAuth sites also encode `role`, but the local login
site does not. -/
theorem claim_C5_claims_per_site (u : User) (now : Int) (jti : String) :
    (dict_get (local_login_claims u now jti) "sub" = some (.str (toString u.id)) ∧
     dict_get (local_login_claims u now jti) "iat" = some (.time now) ∧
     dict_get (local_login_claims u now jti) "exp" =
       some (.time (now + ACCESS_TOKEN_EXPIRE)) ∧
     dict_get (local_login_claims u now jti) "jti" = some (.str jti) ∧
     dict_get (local_login_claims u now jti) "role" = none) ∧
    (dict_get (google_callback_claims u now jti) "sub" = some (.str (toString u.id)) ∧
     dict_get (google_callback_claims u now jti) "iat" = some (.time now) ∧
     dict_get (google_callback_claims u now jti) "exp" =
       some (.time (now + ACCESS_TOKEN_EXPIRE)) ∧
     dict_get (google_callback_claims u now jti) "jti" = some (.str jti) ∧
     dict_get (google_callback_claims u now jti) "role" = some (.str u.role)) ∧
    (dict_get (refresh_site_claims u now jti) "sub" = some (.str (toString u.id)) ∧
     dict_get (refresh_site_claims u now jti) "iat" = some (.time now) ∧
     dict_get (refresh_site_claims u now jti) "exp" =
       some (.time (now + ACCESS_TOKEN_EXPIRE)) ∧
     dict_get (refresh_site_claims u now jti) "jti" = some (.str jti) ∧
     dict_get (refresh_site_claims u now jti) "role" = some (.str u.role)) := by
  refine ⟨⟨?_, ?_, ?_, ?_, ?_⟩, ⟨?_, ?_, ?_, ?_, ?_⟩, ⟨?_, ?_, ?_, ?_, ?_⟩⟩ <;>
    simp [local_login_claims, google_callback_claims, refresh_site_claims,
      create_access_token, dict_set, dict_get]

/-- Claim C9: `request_password_reset` returns the identical generic success
response on every input — in particular for two runs against different user
tables (one containing a principal with the email, one not), at different
instants and with different generated tokens — so the response reveals
nothing about account existence. -/
theorem claim_C9_response_independent_of_account
    (email : String) (db1 db2 : List User) (now1 now2 : Int) (raw1 raw2 : String) :
    (request_password_reset email db1 now1 raw1).1 =
      (request_password_reset email db2 now2 raw2).1 := by
  rw [request_response_is_success, request_response_is_success]

theorem find?_reset_none (db : List User) (u w : User) (h' : String)
    (hw : w.reset_token = none) (hwid : w.id = u.id)
    (huniq : ∀ v ∈ db, v.reset_token = some h' → v = u) :
    (update_user db w).find? (fun v => v.reset_token == some h') = none := by
  apply List.find?_eq_none.mpr
  intro x hx hpx
  simp only [update_user, List.mem_map] at hx
  rcases hx with ⟨v, hv, rfl⟩
  by_cases hid : v.id = u.id
  · have hxe : (if v.id == w.id then w else v) = w := by simp [hid, hwid]
    rw [hxe] at hpx
    rw [hw] at hpx
    simp at hpx
  · have hxe : (if v.id == w.id then w else v) = v := by simp [hid, hwid]
    rw [hxe] at hpx
    have hv' : v.reset_token = some h' := by simpa using hpx
    exact hid (congrArg User.id (huniq v hv hv'))

/-- Claim C6: a reset token presented after its expiry fails verification,
clears the stored reset state (token digest and expiry) on the principal,
and a subsequent verification of the same token — at any instant, with or
without attempt counting — also fails, leaving the table unchanged. -/
theorem claim_C6_expired_reset_token (raw : String) (db : List User)
    (now : Int) (u : User) (e : Int)
    (hfind : db.find? (fun v => v.reset_token == some (hash_token raw)) = some u)
    (hexp : u.reset_token_expires = some e) (hlt : e < now)
    (huniq : ∀ v ∈ db, v.reset_token = some (hash_token raw) → v = u) :
    (∀ inc : Bool,
      verify_reset_token raw db now inc = (none, update_user db (clear_reset u))) ∧
    (∀ (now' : Int) (inc' : Bool),
      verify_reset_token raw (update_user db (clear_reset u)) now' inc' =
        (none, update_user db (clear_reset u))) := by
  constructor
  · intro inc
    unfold verify_reset_token
    rw [hfind]
    have hex : reset_token_expired u now = true := by
      simp [reset_token_expired, hexp, hlt]
    simp [hex, clear_reset]
  · intro now' inc'
    unfold verify_reset_token
    rw [find?_reset_none db u (clear_reset u) (hash_token raw) rfl rfl huniq]

/-- Claim C7: verifying a live (matching, unexpired) reset token with
attempt counting increments the principal's attempt counter; while the new
counter stays below the maximum of 3 the verification succeeds with the
token fields untouched, and once it reaches the maximum the reset state is
cleared and verification fails — and stays failing afterwards, closing the
reset window. -/
theorem claim_C7_attempt_limit (raw : String) (db : List User) (now : Int)
    (u : User)
    (hfind : db.find? (fun v => v.reset_token == some (hash_token raw)) = some u)
    (hlive : reset_token_expired u now = false)
    (huniq : ∀ v ∈ db, v.reset_token = some (hash_token raw) → v = u) :
    (u.reset_attempts + 1 < MAX_RESET_ATTEMPTS →
      verify_reset_token raw db now true =
        (some { u with reset_attempts := u.reset_attempts + 1 },
         update_user db { u with reset_attempts := u.reset_attempts + 1 })) ∧
    (MAX_RESET_ATTEMPTS ≤ u.reset_attempts + 1 →
      verify_reset_token raw db now true =
        (none, update_user db
          { u with
            reset_attempts := u.reset_attempts + 1
            reset_token := none
            reset_token_expires := none }) ∧
      ∀ (now' : Int) (inc' : Bool),
        verify_reset_token raw
          (update_user db
            { u with
              reset_attempts := u.reset_attempts + 1
              reset_token := none
              reset_token_expires := none }) now' inc' =
          (none, update_user db
            { u with
              reset_attempts := u.reset_attempts + 1
              reset_token := none
              reset_token_expires := none })) := by
  constructor
  · intro hlt
    unfold verify_reset_token
    rw [hfind]
    simp [hlive, Nat.not_le.mpr hlt]
  · intro hge
    constructor
    · unfold verify_reset_token
      rw [hfind]
      simp [hlive, hge]
    · intro now' inc'
      unfold verify_reset_token
      rw [find?_reset_none db u
        { u with
          reset_attempts := u.reset_attempts + 1
          reset_token := none
          reset_token_expires := none } (hash_token raw) rfl rfl huniq]

/-- Claim C8 counterexample: the claim says verification with
`increment=false` never mutates the principal's reset state; but presenting
the expired token of `expired_reset_user` with `increment=false` clears the
stored token digest, so the users table changes. -/
theorem claim_C8_cex_expired_path_mutates :
    (verify_reset_token "tok8" [expired_reset_user] 100 false).2 ≠
      [expired_reset_user] := by
  decide

/-- Claim C8 (amended): verification with `increment=false` is non-mutating
whenever the presented token matches no record or matches an unexpired
record (and in the latter case succeeds); when it matches an expired record
it fails and clears that principal's token digest and expiry — the attempt
counter is never changed with `increment=false`. -/
theorem claim_C8_no_increment_frame (raw : String) (db : List User) (now : Int) :
    (db.find? (fun v => v.reset_token == some (hash_token raw)) = none →
      verify_reset_token raw db now false = (none, db)) ∧
    (∀ u, db.find? (fun v => v.reset_token == some (hash_token raw)) = some u →
      reset_token_expired u now = false →
      verify_reset_token raw db now false = (some u, db)) ∧
    (∀ u, db.find? (fun v => v.reset_token == some (hash_token raw)) = some u →
      reset_token_expired u now = true →
      verify_reset_token raw db now false = (none, update_user db (clear_reset u))) := by
  refine ⟨fun hnone => ?_, fun u hfind hlive => ?_, fun u hfind hexp => ?_⟩
  · unfold verify_reset_token
    rw [hnone]
  · unfold verify_reset_token
    rw [hfind]
    simp [hlive]
  · unfold verify_reset_token
    rw [hfind]
    simp [hexp, clear_reset]

theorem auth_fail_step (email : String) (v : User) (wrong : String) (now : Int)
    (hmail : (str_lower v.email == str_lower email) = true)
    (hw : verify_hashed_password wrong v.password_hash = false)
    (hn : v.failed_login_attempts < 5) :
    authenticate_user email wrong [v] now =
      (none,
       [{ v with
          failed_login_attempts := v.failed_login_attempts + 1
          last_failed_login_at := some now }]) := by
  have hfind : List.find? (fun x => str_lower x.email == str_lower email) [v] = some v := by
    simp [List.find?, hmail]
  have hlock : check_lockout v now = some v := by
    unfold check_lockout
    rw [if_neg (by omega)]
  simp only [authenticate_user, hfind, hlock]
  simp [hw, update_user]

theorem auth_success_step (email : String) (v : User) (pw : String) (now : Int)
    (hmail : (str_lower v.email == str_lower email) = true)
    (hp : verify_hashed_password pw v.password_hash = true)
    (hlock : check_lockout v now = some v) :
    authenticate_user email pw [v] now =
      (some (success_user v now), [success_user v now]) := by
  have hfind : List.find? (fun x => str_lower x.email == str_lower email) [v] = some v := by
    simp [List.find?, hmail]
  simp only [authenticate_user, hfind, hlock]
  simp [hp, update_user, success_user]

theorem consecutive_failed_logins_eq (u : User) (wrong : String) (t : Int)
    (hw : verify_hashed_password wrong u.password_hash = false)
    (h0 : u.failed_login_attempts = 0) :
    ∀ n, n + 1 ≤ 5 →
      consecutive_failed_logins u wrong t (n + 1) =
        [{ u with failed_login_attempts := n + 1, last_failed_login_at := some t }] := by
  intro n
  induction n with
  | zero =>
    intro _
    show (authenticate_user u.email wrong [u] t).2 = _
    rw [auth_fail_step u.email u wrong t (by simp) hw (by omega)]
    simp [h0]
  | succ m ih =>
    intro h
    have hm := ih (by omega)
    show (authenticate_user u.email wrong (consecutive_failed_logins u wrong t (m + 1)) t).2 = _
    rw [hm]
    rw [auth_fail_step u.email
      { u with failed_login_attempts := m + 1, last_failed_login_at := some t }
      wrong t (by simp) hw (show m + 1 < 5 by omega)]

/-- Claim C3: starting from a principal with a clean failure record, exactly
5 consecutive failed logins lock the account (the table then holds the row
with counter 5 and the failure instant); attempt #6 within the 30-minute
window returns the AccountLocked error regardless of the password presented;
the same attempt once 30 minutes have elapsed succeeds with valid
credentials; and the successful login resets the failed-login counter and
clears the last-failure timestamp (the `success_user` row). With only 4
failures, a valid login succeeds even within the window. -/
theorem claim_C3_five_failures_lock (u : User) (wrong pw : String) (t : Int)
    (hw : verify_hashed_password wrong u.password_hash = false)
    (hp : verify_hashed_password pw u.password_hash = true)
    (h0 : u.failed_login_attempts = 0) :
    consecutive_failed_logins u wrong t 5 = [locked_user u t] ∧
    (∀ (p : String) (now : Int), now - t < lockout_duration →
      login_outcome u.email p (consecutive_failed_logins u wrong t 5) now =
        .error .account_locked) ∧
    (∀ now : Int, lockout_duration ≤ now - t →
      authenticate_user u.email pw (consecutive_failed_logins u wrong t 5) now =
        (some (success_user u now), [success_user u now])) ∧
    (∀ now : Int,
      authenticate_user u.email pw (consecutive_failed_logins u wrong t 4) now =
        (some (success_user u now), [success_user u now])) := by
  have h5 : consecutive_failed_logins u wrong t 5 = [locked_user u t] := by
    have h := consecutive_failed_logins_eq u wrong t hw h0 4 (by omega)
    simpa [locked_user] using h
  have h4 : consecutive_failed_logins u wrong t 4 =
      [{ u with failed_login_attempts := 4, last_failed_login_at := some t }] := by
    have h := consecutive_failed_logins_eq u wrong t hw h0 3 (by omega)
    simpa using h
  refine ⟨h5, fun p now hnow => ?_, fun now hnow => ?_, fun now => ?_⟩
  · have hfind1 : List.find? (fun v => str_lower v.email == str_lower u.email)
        [locked_user u t] = some (locked_user u t) := by
      simp [List.find?, locked_user]
    have hlock : check_lockout (locked_user u t) now = none := by
      simp [check_lockout, locked_user, hnow]
    have hauth : authenticate_user u.email p [locked_user u t] now =
        (none, [locked_user u t]) := by
      simp only [authenticate_user, hfind1, hlock]
    have hfind2 : List.find? (fun v => v.email == u.email) [locked_user u t] =
        some (locked_user u t) := by
      simp [List.find?, locked_user]
    rw [h5]
    simp only [login_outcome, hauth, hfind2]
    rw [if_pos (by simp [locked_user])]
  · have hlock : check_lockout (locked_user u t) now = some (locked_user u t) := by
      simp [check_lockout, locked_user, not_lt.mpr hnow]
    rw [h5]
    rw [auth_success_step u.email (locked_user u t) pw now (by simp [locked_user])
      hp hlock]
    rfl
  · have hlock : check_lockout
        { u with failed_login_attempts := 4, last_failed_login_at := some t } now =
        some { u with failed_login_attempts := 4, last_failed_login_at := some t } := by
      simp [check_lockout]
    rw [h4]
    rw [auth_success_step u.email
      { u with failed_login_attempts := 4, last_failed_login_at := some t } pw now
      (by simp) hp hlock]
    rfl

/-- Claim C10: while a principal is locked (counter at least 5 and less than
30 minutes since the recorded failure), a login attempt fails for every
password — the password is never consulted — and the users table is returned
unchanged, so the counter and the last-failure timestamp are untouched and
the window is not extended; exactly at the 30-minute mark the next attempt
with valid credentials succeeds, so the lockout ends exactly 30 minutes
after the failure that triggered it. -/
theorem claim_C10_lockout_frame (email : String) (db : List User) (u : User)
    (t : Int)
    (hfind : db.find? (fun v => str_lower v.email == str_lower email) = some u)
    (h5 : 5 ≤ u.failed_login_attempts)
    (hlf : u.last_failed_login_at = some t) :
    (∀ (p : String) (now : Int), now - t < lockout_duration →
      authenticate_user email p db now = (none, db)) ∧
    (∀ (pw : String) (now : Int), lockout_duration ≤ now - t →
      verify_hashed_password pw u.password_hash = true →
      authenticate_user email pw db now =
        (some (success_user u now), update_user db (success_user u now))) := by
  constructor
  · intro p now hnow
    have hlock : check_lockout u now = none := by
      simp [check_lockout, h5, hlf, hnow]
    simp only [authenticate_user, hfind, hlock]
  · intro pw now hnow hp
    have hlock : check_lockout u now = some u := by
      simp [check_lockout, h5, hlf, not_lt.mpr hnow]
    simp only [authenticate_user, hfind, hlock]
    simp [hp, success_user]

/-! ## Witnesses: each hypothesis-bearing claim theorem applied at a
concrete input -/

/-- Claim C6 witness: `expired_reset_user`'s token `"tok8"` expired at 10;
verified at 100 it fails and clears the state, and verifying again at 200
fails as well. -/
theorem claim_C6_expired_reset_token_witness :
    verify_reset_token "tok8" [expired_reset_user] 100 true =
      (none, update_user [expired_reset_user] (clear_reset expired_reset_user)) ∧
    verify_reset_token "tok8"
        (update_user [expired_reset_user] (clear_reset expired_reset_user)) 200 true =
      (none, update_user [expired_reset_user] (clear_reset expired_reset_user)) :=
  ⟨(claim_C6_expired_reset_token "tok8" [expired_reset_user] 100 expired_reset_user 10
      (by decide) rfl (by decide) (by decide)).1 true,
   (claim_C6_expired_reset_token "tok8" [expired_reset_user] 100 expired_reset_user 10
      (by decide) rfl (by decide) (by decide)).2 200 true⟩

/-- Claim C7 witness: `live_reset_user` (counter 1) verified at 500
increments to 2 and succeeds; from counter 2 the next verification reaches
the maximum 3, clears the state and fails. -/
theorem claim_C7_attempt_limit_witness :
    verify_reset_token "tok7" [live_reset_user] 500 true =
      (some { live_reset_user with reset_attempts := 2 },
       update_user [live_reset_user] { live_reset_user with reset_attempts := 2 }) ∧
    verify_reset_token "tok7" [{ live_reset_user with reset_attempts := 2 }] 500 true =
      (none,
       update_user [{ live_reset_user with reset_attempts := 2 }]
        { live_reset_user with
          reset_attempts := 3
          reset_token := none
          reset_token_expires := none }) :=
  ⟨(claim_C7_attempt_limit "tok7" [live_reset_user] 500 live_reset_user
      (by decide) (by decide) (by decide)).1 (by decide),
   ((claim_C7_attempt_limit "tok7" [{ live_reset_user with reset_attempts := 2 }] 500
      { live_reset_user with reset_attempts := 2 }
      (by decide) (by decide) (by decide)).2 (by decide)).1⟩

/-- Claim C8 witness (amended theorem): verifying `live_reset_user`'s
unexpired token with `increment=false` succeeds and leaves the table
unchanged. -/
theorem claim_C8_no_increment_frame_witness :
    verify_reset_token "tok7" [live_reset_user] 500 false =
      (some live_reset_user, [live_reset_user]) :=
  (claim_C8_no_increment_frame "tok7" [live_reset_user] 500).2.1 live_reset_user
    (by decide) (by decide)

/-- Claim C3 witness: `plain_user` (password `"Str0ng!Pass"`) after 5 failed
logins with `"wrongpw"` at instant 0 is locked; the correct password at 60
seconds is rejected with the AccountLocked error; at 1800 seconds (exactly
30 minutes) it succeeds and the counters reset; with only 4 failures the
correct password succeeds at 60 seconds. -/
theorem claim_C3_five_failures_lock_witness :
    consecutive_failed_logins plain_user "wrongpw" 0 5 = [locked_user plain_user 0] ∧
    login_outcome plain_user.email "Str0ng!Pass"
        (consecutive_failed_logins plain_user "wrongpw" 0 5) 60 =
      .error .account_locked ∧
    authenticate_user plain_user.email "Str0ng!Pass"
        (consecutive_failed_logins plain_user "wrongpw" 0 5) 1800 =
      (some (success_user plain_user 1800), [success_user plain_user 1800]) ∧
    authenticate_user plain_user.email "Str0ng!Pass"
        (consecutive_failed_logins plain_user "wrongpw" 0 4) 60 =
      (some (success_user plain_user 60), [success_user plain_user 60]) :=
  ⟨(claim_C3_five_failures_lock plain_user "wrongpw" "Str0ng!Pass" 0
      (by decide) (by decide) rfl).1,
   (claim_C3_five_failures_lock plain_user "wrongpw" "Str0ng!Pass" 0
      (by decide) (by decide) rfl).2.1 "Str0ng!Pass" 60 (by decide),
   (claim_C3_five_failures_lock plain_user "wrongpw" "Str0ng!Pass" 0
      (by decide) (by decide) rfl).2.2.1 1800 (by decide),
   (claim_C3_five_failures_lock plain_user "wrongpw" "Str0ng!Pass" 0
      (by decide) (by decide) rfl).2.2.2 60⟩

/-- Claim C10 witness: the locked `plain_user` row (5 failures recorded at
instant 0): the correct password at 1799 seconds fails with the table
unchanged; the same attempt at 1800 seconds (exactly 30 minutes) succeeds. -/
theorem claim_C10_lockout_frame_witness :
    authenticate_user plain_user.email "Str0ng!Pass" [locked_user plain_user 0] 1799 =
      (none, [locked_user plain_user 0]) ∧
    authenticate_user plain_user.email "Str0ng!Pass" [locked_user plain_user 0] 1800 =
      (some (success_user (locked_user plain_user 0) 1800),
       update_user [locked_user plain_user 0]
        (success_user (locked_user plain_user 0) 1800)) :=
  ⟨(claim_C10_lockout_frame plain_user.email [locked_user plain_user 0]
      (locked_user plain_user 0) 0 (by decide) (by decide) rfl).1
      "Str0ng!Pass" 1799 (by decide),
   (claim_C10_lockout_frame plain_user.email [locked_user plain_user 0]
      (locked_user plain_user 0) 0 (by decide) (by decide) rfl).2
      "Str0ng!Pass" 1800 (by decide) (by decide)⟩

end IdeasHub
